import Mathlib

/-!
Shallow embedding of `check_packages.py` (gentoo-scripts).

Python strings are modelled as `List Char` (`PyStr`): a Python `str` is a
sequence of code points, and Python's default string comparison is the
lexicographic order on code points, which coincides with the `LinearOrder`
on `List Char`.  The external portage database (installed-package matches,
repository metadata, configured architecture) is modelled as a record of
read-only query functions (`PortageEnv`); the file system seen by
`_resolve_path` is modelled likewise (`FileSystem`).  Diagnostics, which the
script prints, are collected into a list of `Diag` values in print order.
-/

abbrev PyStr := List Char

/-- Conversion from a Lean string literal to the `PyStr` model. -/
def pstr (s : String) : PyStr := s.data

/-- Python's `operator.le` on strings: lexicographic by code point. -/
def pyLeB (a b : PyStr) : Bool := decide (a ≤ b)

/-- Model of `_is_sorted(iterable, comparator=operator.le)`: `tee` the iterable,
advance the second copy by one, and require `comparator` on every aligned
pair (`zip` stops at the shorter copy, as `map` does in Python). -/
def _is_sorted (comparator : PyStr → PyStr → Bool) (l : List PyStr) : Bool :=
  (l.zip l.tail).all fun p => comparator p.1 p.2

/-- Model of `_strip_use_flag(use_flag, prefix)`: if the flag starts with one of the
accepted prefixes, drop its first character (Python `use_flag[1:]`),
otherwise return it unchanged. -/
def _strip_use_flag (use_flag : PyStr) (pre : List PyStr) : PyStr :=
  if pre.any (fun p => p.isPrefixOf use_flag) then use_flag.drop 1 else use_flag

/-- The default `prefix=("+", "-")` of `_strip_use_flag`. -/
def signPrefixes : List PyStr := [['+'], ['-']]

/-- The `prefix="+"` passed via `partial` in the sort-order check. -/
def plusOnly : List PyStr := [['+']]

/-- Python `str.split()` with no argument: split on runs of whitespace,
discarding empty tokens. -/
def pySplitGo : List Char → List Char → List PyStr
  | [], acc => if acc.isEmpty then [] else [acc.reverse]
  | c :: cs, acc =>
    if c.isWhitespace then
      if acc.isEmpty then pySplitGo cs [] else acc.reverse :: pySplitGo cs []
    else pySplitGo cs (c :: acc)

def pySplit (s : PyStr) : List PyStr := pySplitGo s []

/-- Python `str.strip()`: remove leading and trailing whitespace. -/
def pyTrim (s : PyStr) : PyStr :=
  ((s.dropWhile Char.isWhitespace).reverse.dropWhile Char.isWhitespace).reverse

/-- The read-only portage interface used by the script:
`vartree().dbapi.match`, `porttree().dbapi.aux_get` for `KEYWORDS` and
`IUSE` (`none` models `PortageKeyError`), `portage.versions.cpv_getversion`,
and `portage.settings["ARCH"]`. -/
structure PortageEnv where
  vartreeMatch : PyStr → List PyStr
  keywordsOf : PyStr → Option PyStr
  iuseOf : PyStr → Option PyStr
  cpv_getversion : PyStr → Option PyStr
  arch : PyStr

/-- Model of `_portage_unstable_arch()`: `"~" + portage.settings["ARCH"]`. -/
def _portage_unstable_arch (env : PortageEnv) : PyStr := '~' :: env.arch

/-- One diagnostic line printed by `_log`, in the order of its fields. -/
inductive Diag where
  | noLongerInstalled (file_name atom : PyStr)
  | noLongerAvailable (file_name atom : PyStr)
  | noLongerRequiresKeyword (file_name atom highlight : PyStr)
  | unsortedUseFlags (file_name atom : PyStr)
  | noLongerMakesUse (file_name atom highlight : PyStr)
deriving DecidableEq, Repr

/-- A resolved input file: its display name and its raw lines. -/
structure PFile where
  name : PyStr
  lines : List PyStr
deriving DecidableEq, Repr

/-- The per-line filter of `_read_path`: strip each line, keep those that
are non-empty and do not start with `#`. -/
def _read_file_lines (lines : List PyStr) : List PyStr :=
  (lines.map pyTrim).filter fun l => !l.isEmpty && !(pstr "#").isPrefixOf l

/-- Model of `_read_path`, over already-resolved files: yield `(file-name, line)`
for every surviving line of every file, in order. -/
def _read_path (files : List PFile) : List (PyStr × PyStr) :=
  files.flatMap fun f => (_read_file_lines f.lines).map fun l => (f.name, l)

/-- The abstract file-system interface used by `_resolve_path`:
`Path.is_dir`, `Path.iterdir`, `Path.is_file`, `Path.is_symlink`. -/
structure FileSystem where
  is_dir : PyStr → Bool
  iterdir : PyStr → List PyStr
  is_file : PyStr → Bool
  is_symlink : PyStr → Bool

/-- Model of `_resolve_path(path)`: for a directory, the name-sorted regular,
non-symlink direct entries; otherwise the singleton `[path]`. -/
def _resolve_path (fs : FileSystem) (path : PyStr) : List PyStr :=
  if fs.is_dir path then
    List.insertionSort (· ≤ ·)
      ((fs.iterdir path).filter fun x => fs.is_file x && !fs.is_symlink x)
  else [path]

/-- Body of the `for package in installed_packages` loop of
`check_keywords`: the diagnostics emitted for one installed match. -/
def keywordsForPackage (env : PortageEnv) (file_name atom : PyStr)
    (keywords : List PyStr) (package : PyStr) : List Diag :=
  match env.keywordsOf package with
  | none => [Diag.noLongerAvailable file_name atom]
  | some package_keywords =>
    if keywords = [pstr "**"] ∧ package_keywords = [] then []
    else
      let available_keywords := pySplit package_keywords
      (keywords.filter fun keyword => keyword ∉ available_keywords).map
        (Diag.noLongerRequiresKeyword file_name atom)

/-- Body of the `for file, line in _read_path(path)` loop of
`check_keywords`: the diagnostics emitted for one tokenized line. -/
def checkKeywordsLine (env : PortageEnv) (file_name line : PyStr) : List Diag :=
  match pySplit line with
  | [] => []
  | atom :: rest =>
    let keywords := if rest.isEmpty then [_portage_unstable_arch env] else rest
    let installed_packages := env.vartreeMatch atom
    if installed_packages = [] then
      [Diag.noLongerInstalled file_name atom]
    else if env.cpv_getversion atom = none then
      []
    else
      installed_packages.flatMap (keywordsForPackage env file_name atom keywords)

/-- Model of `check_keywords`, over the resolved input files. -/
def check_keywords (env : PortageEnv) (files : List PFile) : List Diag :=
  (_read_path files).flatMap fun fl => checkKeywordsLine env fl.1 fl.2

/-- Body of the per-line loop of `check_licenses`: the atom is
`line.split(maxsplit=1)[0]`, i.e. the first whitespace-delimited token of
the (already stripped) line. -/
def checkLicensesLine (env : PortageEnv) (file_name line : PyStr) : List Diag :=
  match pySplit line with
  | [] => []
  | atom :: _ =>
    if env.vartreeMatch atom = [] then [Diag.noLongerInstalled file_name atom]
    else []

/-- Model of `check_licenses`, over the resolved input files. -/
def check_licenses (env : PortageEnv) (files : List PFile) : List Diag :=
  (_read_path files).flatMap fun fl => checkLicensesLine env fl.1 fl.2

/-- Body of the `for package in installed_packages` loop of
`check_use_flags`: the diagnostics emitted for one installed match. -/
def useFlagsForPackage (env : PortageEnv) (file_name atom : PyStr)
    (use_flags : List PyStr) (package : PyStr) : List Diag :=
  match env.iuseOf package with
  | none => [Diag.noLongerAvailable file_name atom]
  | some package_iuse =>
    let available_use_flags :=
      (pySplit package_iuse).map fun f => _strip_use_flag f signPrefixes
    ((use_flags.map fun f => _strip_use_flag f signPrefixes).filter
        fun use_flag => use_flag ∉ available_use_flags).map
      (Diag.noLongerMakesUse file_name atom)

/-- Body of the per-line loop of `check_use_flags`: the optional sort-order
check first, then the installation check, then the per-match IUSE check. -/
def checkUseFlagsLine (env : PortageEnv) (check_sort_order : Bool)
    (file_name line : PyStr) : List Diag :=
  match pySplit line with
  | [] => []
  | atom :: use_flags =>
    let sortDiags :=
      if check_sort_order then
        let stripped_use_flags := use_flags.map fun f => _strip_use_flag f plusOnly
        if !_is_sorted pyLeB stripped_use_flags then
          [Diag.unsortedUseFlags file_name atom]
        else []
      else []
    sortDiags ++
      (if env.vartreeMatch atom = [] then
        [Diag.noLongerInstalled file_name atom]
      else
        (env.vartreeMatch atom).flatMap (useFlagsForPackage env file_name atom use_flags))

/-- Model of `check_use_flags`, over the resolved input files. -/
def check_use_flags (env : PortageEnv) (check_sort_order : Bool)
    (files : List PFile) : List Diag :=
  (_read_path files).flatMap fun fl => checkUseFlagsLine env check_sort_order fl.1 fl.2

/-! ### Unfolding lemmas and shared helpers -/

theorem checkUseFlagsLine_cons (env : PortageEnv) (cso : Bool)
    (file_name line atom : PyStr) (use_flags : List PyStr)
    (htok : pySplit line = atom :: use_flags) :
    checkUseFlagsLine env cso file_name line =
      (if cso then
        (if !_is_sorted pyLeB (use_flags.map fun f => _strip_use_flag f plusOnly) then
          [Diag.unsortedUseFlags file_name atom]
        else [])
      else []) ++
      (if env.vartreeMatch atom = [] then
        [Diag.noLongerInstalled file_name atom]
      else
        (env.vartreeMatch atom).flatMap (useFlagsForPackage env file_name atom use_flags)) := by
  unfold checkUseFlagsLine
  rw [htok]

theorem checkKeywordsLine_cons (env : PortageEnv)
    (file_name line atom : PyStr) (rest : List PyStr)
    (htok : pySplit line = atom :: rest) :
    checkKeywordsLine env file_name line =
      (if env.vartreeMatch atom = [] then
        [Diag.noLongerInstalled file_name atom]
      else if env.cpv_getversion atom = none then
        []
      else
        (env.vartreeMatch atom).flatMap
          (keywordsForPackage env file_name atom
            (if rest.isEmpty then [_portage_unstable_arch env] else rest))) := by
  unfold checkKeywordsLine
  rw [htok]

theorem checkLicensesLine_cons (env : PortageEnv)
    (file_name line atom : PyStr) (rest : List PyStr)
    (htok : pySplit line = atom :: rest) :
    checkLicensesLine env file_name line =
      (if env.vartreeMatch atom = [] then [Diag.noLongerInstalled file_name atom]
      else []) := by
  unfold checkLicensesLine
  rw [htok]

theorem unsorted_not_mem_forPackage (env : PortageEnv)
    (fn a file_name atom package : PyStr) (use_flags : List PyStr) :
    Diag.unsortedUseFlags fn a ∉ useFlagsForPackage env file_name atom use_flags package := by
  unfold useFlagsForPackage
  cases h : env.iuseOf package with
  | none => simp
  | some package_iuse => simp

/-- A portage environment in which nothing is installed and the repository
is empty. -/
def envEmpty : PortageEnv where
  vartreeMatch _ := []
  keywordsOf _ := none
  iuseOf _ := none
  cpv_getversion _ := none
  arch := pstr "amd64"

/-! ### C1 -/

/-- Helper: with sort-order checking on, the unsorted diagnostic appears
in a line's output exactly when the `+`-stripped flag sequence is not
non-decreasing. -/
theorem unsorted_mem_iff (env : PortageEnv)
    (file_name line atom : PyStr) (use_flags : List PyStr)
    (htok : pySplit line = atom :: use_flags) :
    Diag.unsortedUseFlags file_name atom ∈ checkUseFlagsLine env true file_name line
      ↔ _is_sorted pyLeB (use_flags.map fun f => _strip_use_flag f plusOnly) = false := by
  rw [checkUseFlagsLine_cons env true file_name line atom use_flags htok]
  cases hs : _is_sorted pyLeB (use_flags.map fun f => _strip_use_flag f plusOnly) with
  | false =>
    simp
  | true =>
    simp only [Bool.not_true, if_true, if_false, Bool.false_eq_true, iff_false,
      List.nil_append, ite_true, Bool.true_eq_false]
    by_cases hm : env.vartreeMatch atom = []
    · simp [hm]
    · simp only [hm, if_false, List.mem_flatMap, ite_false]
      rintro ⟨p, -, hp⟩
      exact unsorted_not_mem_forPackage env file_name atom file_name atom p use_flags hp

/-- C1: with sort-order checking enabled, a tokenized line's flags are
normalized by stripping a leading `+` only, the normalized sequence is
required to be non-decreasing (the "has unsorted USE flags" diagnostic is
emitted exactly when it is not), and for a line that is both unsorted and
whose atom has no installed match, the unsorted diagnostic and the
"no longer installed" diagnostic are both emitted, in that order. -/
theorem c1_sort_order_check (env : PortageEnv)
    (file_name line atom : PyStr) (use_flags : List PyStr)
    (htok : pySplit line = atom :: use_flags) :
    (Diag.unsortedUseFlags file_name atom ∈ checkUseFlagsLine env true file_name line
      ↔ _is_sorted pyLeB (use_flags.map fun f => _strip_use_flag f plusOnly) = false)
    ∧ (_is_sorted pyLeB (use_flags.map fun f => _strip_use_flag f plusOnly) = false →
        env.vartreeMatch atom = [] →
        checkUseFlagsLine env true file_name line =
          [Diag.unsortedUseFlags file_name atom,
           Diag.noLongerInstalled file_name atom]) := by
  refine ⟨unsorted_mem_iff env file_name line atom use_flags htok, fun hs hm => ?_⟩
  rw [checkUseFlagsLine_cons env true file_name line atom use_flags htok]
  simp [hs, hm]

/-- Witness for C1: `cat/pkg zeta alpha` is unsorted and `cat/pkg` is not
installed in `envEmpty`, so both diagnostics are emitted, in order. -/
theorem c1_sort_order_check_witness :
    checkUseFlagsLine envEmpty true (pstr "package.use") (pstr "cat/pkg zeta alpha") =
      [Diag.unsortedUseFlags (pstr "package.use") (pstr "cat/pkg"),
       Diag.noLongerInstalled (pstr "package.use") (pstr "cat/pkg")] :=
  (c1_sort_order_check envEmpty (pstr "package.use") (pstr "cat/pkg zeta alpha")
    (pstr "cat/pkg") [pstr "zeta", pstr "alpha"] (by decide)).2 (by decide) rfl

/-! ### C2 -/

/-- An environment in which `cat/pkg-1.0` is installed and its repository
`KEYWORDS` field is present but empty. -/
def envEmptyKeywords : PortageEnv where
  vartreeMatch _ := [pstr "cat/pkg-1.0"]
  keywordsOf _ := some []
  iuseOf _ := none
  cpv_getversion _ := some (pstr "1.0")
  arch := pstr "amd64"

/-- C2: when a match's repository `KEYWORDS` field is present but empty and
the declared keyword list is exactly `["**"]`, no diagnostic is emitted for
that match; for any other declared list (in particular `**` together with
further tokens) the exemption does not apply and every declared keyword is
reported against the empty available set. -/
theorem c2_wildcard_empty_keywords (env : PortageEnv)
    (file_name atom package : PyStr) (keywords : List PyStr)
    (hkw : env.keywordsOf package = some []) :
    keywordsForPackage env file_name atom [pstr "**"] package = []
    ∧ (keywords ≠ [pstr "**"] →
        keywordsForPackage env file_name atom keywords package =
          keywords.map (Diag.noLongerRequiresKeyword file_name atom)) := by
  have hsome : ∀ ks : List PyStr,
      keywordsForPackage env file_name atom ks package =
        if ks = [pstr "**"] ∧ ([] : PyStr) = [] then []
        else (ks.filter fun keyword => keyword ∉ pySplit ([] : PyStr)).map
          (Diag.noLongerRequiresKeyword file_name atom) := by
    intro ks
    unfold keywordsForPackage
    rw [hkw]
  constructor
  · rw [hsome, if_pos ⟨rfl, rfl⟩]
  · intro hne
    rw [hsome, if_neg (by simp [hne])]
    have havail : pySplit ([] : PyStr) = [] := rfl
    rw [havail]
    simp

/-- Witness for C2: in `envEmptyKeywords`, the lone wildcard is accepted,
while `** extra` yields one diagnostic per declared keyword. -/
theorem c2_wildcard_empty_keywords_witness :
    keywordsForPackage envEmptyKeywords (pstr "package.accept_keywords")
        (pstr "cat/pkg-1.0") [pstr "**"] (pstr "cat/pkg-1.0") = []
    ∧ keywordsForPackage envEmptyKeywords (pstr "package.accept_keywords")
        (pstr "cat/pkg-1.0") [pstr "**", pstr "extra"] (pstr "cat/pkg-1.0") =
      [Diag.noLongerRequiresKeyword (pstr "package.accept_keywords")
        (pstr "cat/pkg-1.0") (pstr "**"),
       Diag.noLongerRequiresKeyword (pstr "package.accept_keywords")
        (pstr "cat/pkg-1.0") (pstr "extra")] :=
  have h := c2_wildcard_empty_keywords envEmptyKeywords (pstr "package.accept_keywords")
    (pstr "cat/pkg-1.0") (pstr "cat/pkg-1.0") [pstr "**", pstr "extra"] rfl
  ⟨h.1, (h.2 (by decide)).trans (by decide)⟩

/-! ### C3 -/

/-- An environment in which `cat/pkg` is installed but the atom has no
extractable version component. -/
def envUnversioned : PortageEnv where
  vartreeMatch _ := [pstr "cat/pkg-1.0"]
  keywordsOf _ := some (pstr "amd64")
  iuseOf _ := none
  cpv_getversion _ := none
  arch := pstr "amd64"

/-- C3: in the keyword checker, a line whose atom has at least one
installed match but no extractable version component is skipped entirely:
no diagnostic is emitted for it. -/
theorem c3_unversioned_atom_skipped (env : PortageEnv)
    (file_name line atom : PyStr) (rest : List PyStr)
    (htok : pySplit line = atom :: rest)
    (hinst : env.vartreeMatch atom ≠ [])
    (hver : env.cpv_getversion atom = none) :
    checkKeywordsLine env file_name line = [] := by
  rw [checkKeywordsLine_cons env file_name line atom rest htok]
  rw [if_neg hinst, if_pos hver]

/-- Witness for C3: `cat/pkg` is installed in `envUnversioned` but carries
no version, so its keyword line produces no diagnostic. -/
theorem c3_unversioned_atom_skipped_witness :
    checkKeywordsLine envUnversioned (pstr "package.accept_keywords")
      (pstr "cat/pkg ~amd64") = [] :=
  c3_unversioned_atom_skipped envUnversioned (pstr "package.accept_keywords")
    (pstr "cat/pkg ~amd64") (pstr "cat/pkg") [pstr "~amd64"]
    (by decide) (by decide) rfl

/-! ### C4 -/

/-- C4: in the keyword checker, a line whose atom has zero installed
matches contributes exactly one "no longer installed" diagnostic (carrying
the file name and the atom), all remaining keyword checks for that line are
skipped, and the surrounding scan continues with the remaining lines. -/
theorem c4_not_installed_single_diag (env : PortageEnv)
    (file_name line atom : PyStr) (rest : List PyStr)
    (htok : pySplit line = atom :: rest)
    (hm : env.vartreeMatch atom = []) :
    checkKeywordsLine env file_name line = [Diag.noLongerInstalled file_name atom]
    ∧ ∀ pre post : List (PyStr × PyStr),
        (pre ++ (file_name, line) :: post).flatMap
            (fun fl => checkKeywordsLine env fl.1 fl.2) =
          pre.flatMap (fun fl => checkKeywordsLine env fl.1 fl.2) ++
            Diag.noLongerInstalled file_name atom ::
              post.flatMap (fun fl => checkKeywordsLine env fl.1 fl.2) := by
  have h1 : checkKeywordsLine env file_name line =
      [Diag.noLongerInstalled file_name atom] := by
    rw [checkKeywordsLine_cons env file_name line atom rest htok, if_pos hm]
  refine ⟨h1, fun pre post => ?_⟩
  rw [List.flatMap_append, List.flatMap_cons, h1]
  simp

/-- Witness for C4: `cat/pkg` is not installed in `envEmpty`; its line
yields exactly the one diagnostic and neighbouring lines are unaffected. -/
theorem c4_not_installed_single_diag_witness :
    checkKeywordsLine envEmpty (pstr "package.accept_keywords")
        (pstr "cat/pkg ~amd64") =
      [Diag.noLongerInstalled (pstr "package.accept_keywords") (pstr "cat/pkg")]
    ∧ ([] ++ (pstr "package.accept_keywords", pstr "cat/pkg ~amd64") ::
          ([] : List (PyStr × PyStr))).flatMap
          (fun fl => checkKeywordsLine envEmpty fl.1 fl.2) =
        [] ++ Diag.noLongerInstalled (pstr "package.accept_keywords") (pstr "cat/pkg") ::
          ([] : List (PyStr × PyStr)).flatMap
            (fun fl => checkKeywordsLine envEmpty fl.1 fl.2) :=
  have h := c4_not_installed_single_diag envEmpty (pstr "package.accept_keywords")
    (pstr "cat/pkg ~amd64") (pstr "cat/pkg") [pstr "~amd64"] (by decide) rfl
  ⟨h.1, h.2 [] []⟩

/-! ### C5 -/

/-- An environment in which `cat/pkg` is installed and its repository
`IUSE` field is `+alpha`. -/
def envIuse : PortageEnv where
  vartreeMatch _ := [pstr "cat/pkg-1.0"]
  keywordsOf _ := some (pstr "amd64")
  iuseOf _ := some (pstr "+alpha")
  cpv_getversion _ := none
  arch := pstr "amd64"

/-- C5: stripping with the symmetric prefix set maps `+foo`, `-foo` and
`foo` all to `foo`; stripping with `+` only maps `+foo` to `foo` but leaves
`-foo` unchanged; the sort-order check applies the asymmetric strip to the
declared flags, and the membership check applies the symmetric strip to
both the override's flags and the package's `IUSE` flags. -/
theorem c5_strip_use_flag_asymmetry (env : PortageEnv)
    (file_name line atom package package_iuse : PyStr) (use_flags : List PyStr)
    (htok : pySplit line = atom :: use_flags)
    (hiuse : env.iuseOf package = some package_iuse) :
    (_strip_use_flag (pstr "+foo") signPrefixes = pstr "foo"
      ∧ _strip_use_flag (pstr "-foo") signPrefixes = pstr "foo"
      ∧ _strip_use_flag (pstr "foo") signPrefixes = pstr "foo"
      ∧ _strip_use_flag (pstr "+foo") plusOnly = pstr "foo"
      ∧ _strip_use_flag (pstr "-foo") plusOnly = pstr "-foo")
    ∧ (Diag.unsortedUseFlags file_name atom ∈ checkUseFlagsLine env true file_name line
        ↔ _is_sorted pyLeB (use_flags.map fun f => _strip_use_flag f plusOnly) = false)
    ∧ useFlagsForPackage env file_name atom use_flags package =
        ((use_flags.map fun f => _strip_use_flag f signPrefixes).filter
            fun use_flag =>
              use_flag ∉ (pySplit package_iuse).map fun f => _strip_use_flag f signPrefixes).map
          (Diag.noLongerMakesUse file_name atom) := by
  refine ⟨by decide, unsorted_mem_iff env file_name line atom use_flags htok, ?_⟩
  unfold useFlagsForPackage
  rw [hiuse]

/-- Witness for C5: the concrete strip equalities, and in `envIuse` the
declared flag `+alpha` matches the `IUSE` entry `+alpha` after symmetric
stripping of both, so no diagnostic is produced for the match. -/
theorem c5_strip_use_flag_asymmetry_witness :
    _strip_use_flag (pstr "-foo") plusOnly = pstr "-foo"
    ∧ useFlagsForPackage envIuse (pstr "package.use") (pstr "cat/pkg")
        [pstr "+alpha"] (pstr "cat/pkg-1.0") = [] :=
  have h := c5_strip_use_flag_asymmetry envIuse (pstr "package.use")
    (pstr "cat/pkg +alpha") (pstr "cat/pkg") (pstr "cat/pkg-1.0") (pstr "+alpha")
    [pstr "+alpha"] (by decide) rfl
  ⟨h.1.2.2.2.2, h.2.2.trans (by decide)⟩

/-! ### C6 -/

/-- C6: the license checker uses only the first whitespace-delimited token
of a line: its output is exactly one "no longer installed" diagnostic when
the atom has zero installed matches and nothing otherwise, and any two
lines with the same first token produce identical output. -/
theorem c6_license_presence_only (env : PortageEnv)
    (file_name line atom : PyStr) (rest : List PyStr)
    (htok : pySplit line = atom :: rest) :
    checkLicensesLine env file_name line =
      (if env.vartreeMatch atom = [] then [Diag.noLongerInstalled file_name atom]
      else [])
    ∧ ∀ (line' : PyStr) (rest' : List PyStr), pySplit line' = atom :: rest' →
        checkLicensesLine env file_name line' = checkLicensesLine env file_name line :=
  have h1 := checkLicensesLine_cons env file_name line atom rest htok
  ⟨h1, fun line' rest' h' =>
    (checkLicensesLine_cons env file_name line' atom rest' h').trans h1.symm⟩

/-- Witness for C6: `cat/pkg` has no installed match in `envEmpty`, so the
line `cat/pkg GPL-2 MIT` yields exactly the one diagnostic, and dropping
the qualifier tokens does not change the output. -/
theorem c6_license_presence_only_witness :
    checkLicensesLine envEmpty (pstr "package.license") (pstr "cat/pkg GPL-2 MIT") =
      [Diag.noLongerInstalled (pstr "package.license") (pstr "cat/pkg")]
    ∧ checkLicensesLine envEmpty (pstr "package.license") (pstr "cat/pkg") =
        checkLicensesLine envEmpty (pstr "package.license") (pstr "cat/pkg GPL-2 MIT") :=
  have h := c6_license_presence_only envEmpty (pstr "package.license")
    (pstr "cat/pkg GPL-2 MIT") (pstr "cat/pkg") [pstr "GPL-2", pstr "MIT"] (by decide)
  ⟨h.1.trans (by decide), h.2 (pstr "cat/pkg") [] (by decide)⟩

/-! ### C7 -/

/-- C7: for a directory, the Input Resolver returns exactly the direct
entries that are regular files and not symbolic links (a permutation of
that filter), sorted by name; for a non-directory path it returns the
one-element sequence containing that path. -/
theorem c7_resolve_path_spec (fs : FileSystem) (path : PyStr) :
    (fs.is_dir path = true →
      List.Sorted (· ≤ ·) (_resolve_path fs path)
      ∧ List.Perm (_resolve_path fs path)
          ((fs.iterdir path).filter fun x => fs.is_file x && !fs.is_symlink x))
    ∧ (fs.is_dir path = false → _resolve_path fs path = [path]) := by
  constructor
  · intro hd
    unfold _resolve_path
    rw [if_pos hd]
    exact ⟨List.sorted_insertionSort _ _, List.perm_insertionSort _ _⟩
  · intro hd
    unfold _resolve_path
    rw [if_neg (by simp [hd])]

/-- A small file system: a directory containing two regular files, a
subdirectory, and a symbolic link. -/
def fsExample : FileSystem where
  is_dir p := decide (p = pstr "/etc/portage/package.use")
  iterdir _ := [pstr "zz-overrides", pstr "aa-base", pstr "subdir", pstr "link"]
  is_file p := decide (p ≠ pstr "subdir")
  is_symlink p := decide (p = pstr "link")

/-- Witness for C7: resolving the directory keeps exactly the two regular
non-symlink entries, in sorted order, and a non-directory path resolves to
itself. -/
theorem c7_resolve_path_spec_witness :
    List.Sorted (· ≤ ·) (_resolve_path fsExample (pstr "/etc/portage/package.use"))
    ∧ List.Perm (_resolve_path fsExample (pstr "/etc/portage/package.use"))
        [pstr "zz-overrides", pstr "aa-base"]
    ∧ _resolve_path fsExample (pstr "/somewhere/file") = [pstr "/somewhere/file"] :=
  have h := c7_resolve_path_spec fsExample (pstr "/etc/portage/package.use")
  have h2 := c7_resolve_path_spec fsExample (pstr "/somewhere/file")
  ⟨(h.1 (by decide)).1, (h.1 (by decide)).2, h2.2 (by decide)⟩

/-! ### C8 -/

theorem read_file_lines_skip (thisLine : PyStr) (ls : List PyStr)
    (h : pyTrim thisLine = [] ∨ (pstr "#").isPrefixOf (pyTrim thisLine) = true) :
    _read_file_lines (thisLine :: ls) = _read_file_lines ls := by
  unfold _read_file_lines
  rw [List.map_cons, List.filter_cons]
  rcases h with h | h
  · rw [h]
    simp
  · rw [h]
    simp

/-- C8: a line that is empty after stripping, or whose stripped form begins
with `#`, is never handed to any checker: removing it from a file leaves
the output of all three checkers unchanged. -/
theorem c8_blank_comment_lines_ignored (env : PortageEnv) (cso : Bool)
    (name thisLine : PyStr) (ls : List PyStr) (files : List PFile)
    (h : pyTrim thisLine = [] ∨ (pstr "#").isPrefixOf (pyTrim thisLine) = true) :
    check_keywords env (⟨name, thisLine :: ls⟩ :: files) =
      check_keywords env (⟨name, ls⟩ :: files)
    ∧ check_licenses env (⟨name, thisLine :: ls⟩ :: files) =
      check_licenses env (⟨name, ls⟩ :: files)
    ∧ check_use_flags env cso (⟨name, thisLine :: ls⟩ :: files) =
      check_use_flags env cso (⟨name, ls⟩ :: files) := by
  have hr : _read_path (⟨name, thisLine :: ls⟩ :: files) =
      _read_path (⟨name, ls⟩ :: files) := by
    unfold _read_path
    rw [List.flatMap_cons, List.flatMap_cons]
    have := read_file_lines_skip thisLine ls h
    simp only [this]
  exact ⟨by unfold check_keywords; rw [hr],
    by unfold check_licenses; rw [hr],
    by unfold check_use_flags; rw [hr]⟩

/-- Witness for C8: dropping a `# comment` line leaves every checker's
output on the remaining file unchanged. -/
theorem c8_blank_comment_lines_ignored_witness :
    check_keywords envEmpty [⟨pstr "f", [pstr "# cat/other", pstr "cat/pkg"]⟩] =
      check_keywords envEmpty [⟨pstr "f", [pstr "cat/pkg"]⟩]
    ∧ check_licenses envEmpty [⟨pstr "f", [pstr "# cat/other", pstr "cat/pkg"]⟩] =
      check_licenses envEmpty [⟨pstr "f", [pstr "cat/pkg"]⟩]
    ∧ check_use_flags envEmpty true [⟨pstr "f", [pstr "# cat/other", pstr "cat/pkg"]⟩] =
      check_use_flags envEmpty true [⟨pstr "f", [pstr "cat/pkg"]⟩] :=
  c8_blank_comment_lines_ignored envEmpty true (pstr "f") (pstr "# cat/other")
    [pstr "cat/pkg"] [] (by decide)

/-! ### C9 -/

/-- The environment `envEmpty` written differently: pointwise equal query functions. -/
def envEmptyAlt : PortageEnv where
  vartreeMatch _ := ([] : List PyStr) ++ []
  keywordsOf _ := none
  iuseOf _ := none
  cpv_getversion _ := none
  arch := 'a' :: pstr "md64"

/-- Input files for the determinism witness. -/
def demoFiles : List PFile :=
  [⟨pstr "package.use", [pstr "cat/pkg zeta alpha", pstr "# note"]⟩]

/-- C9: each checker is a deterministic function of the input files and the
external database state: two environments that answer every query alike
produce identical diagnostics, for each of the three checkers. -/
theorem c9_checkers_deterministic (env₁ env₂ : PortageEnv) (cso : Bool)
    (files : List PFile)
    (hm : ∀ a, env₁.vartreeMatch a = env₂.vartreeMatch a)
    (hk : ∀ p, env₁.keywordsOf p = env₂.keywordsOf p)
    (hi : ∀ p, env₁.iuseOf p = env₂.iuseOf p)
    (hv : ∀ a, env₁.cpv_getversion a = env₂.cpv_getversion a)
    (ha : env₁.arch = env₂.arch) :
    check_keywords env₁ files = check_keywords env₂ files
    ∧ check_licenses env₁ files = check_licenses env₂ files
    ∧ check_use_flags env₁ cso files = check_use_flags env₂ cso files := by
  have he : env₁ = env₂ := by
    cases env₁
    cases env₂
    simp only [PortageEnv.mk.injEq]
    exact ⟨funext hm, funext hk, funext hi, funext hv, ha⟩
  rw [he]
  exact ⟨rfl, rfl, rfl⟩

/-- Witness for C9: two syntactically different but pointwise equal
environments give identical output on `demoFiles`. -/
theorem c9_checkers_deterministic_witness :
    check_keywords envEmpty demoFiles = check_keywords envEmptyAlt demoFiles
    ∧ check_licenses envEmpty demoFiles = check_licenses envEmptyAlt demoFiles
    ∧ check_use_flags envEmpty true demoFiles = check_use_flags envEmptyAlt true demoFiles :=
  c9_checkers_deterministic envEmpty envEmptyAlt true demoFiles
    (fun _ => rfl) (fun _ => rfl) (fun _ => rfl) (fun _ => rfl) rfl

/-! ### C10 -/

/-- C10: `_strip_use_flag` removes at most one leading character: on a
token that begins with two sign characters the symmetric strip yields the
token with exactly one sign removed (still sign-led, never the unsigned
name), and the asymmetric strip removes the first sign only when it is
`+`; on `--foo` and `+-foo` the symmetric strip yields `-foo`. -/
theorem c10_strip_at_most_one_sign (c₁ c₂ : Char) (r : PyStr)
    (h₁ : c₁ = '+' ∨ c₁ = '-') (h₂ : c₂ = '+' ∨ c₂ = '-') :
    _strip_use_flag (c₁ :: c₂ :: r) signPrefixes = c₂ :: r
    ∧ _strip_use_flag (c₁ :: c₂ :: r) signPrefixes ≠ r
    ∧ ((_strip_use_flag (c₁ :: c₂ :: r) signPrefixes).head? = some '+'
        ∨ (_strip_use_flag (c₁ :: c₂ :: r) signPrefixes).head? = some '-')
    ∧ _strip_use_flag ('+' :: c₂ :: r) plusOnly = c₂ :: r
    ∧ _strip_use_flag ('-' :: c₂ :: r) plusOnly = '-' :: c₂ :: r
    ∧ _strip_use_flag (pstr "--foo") signPrefixes = pstr "-foo"
    ∧ _strip_use_flag (pstr "+-foo") signPrefixes = pstr "-foo" := by
  have hstrip : _strip_use_flag (c₁ :: c₂ :: r) signPrefixes = c₂ :: r := by
    rcases h₁ with h | h <;> subst h <;> rfl
  refine ⟨hstrip, ?_, ?_, rfl, rfl, by decide, by decide⟩
  · rw [hstrip]
    exact List.cons_ne_self c₂ r
  · rw [hstrip]
    rcases h₂ with h | h <;> subst h
    · exact Or.inl rfl
    · exact Or.inr rfl

/-- Witness for C10: on `--foo` one sign is stripped, yielding `-foo`,
which is not the unsigned `foo`. -/
theorem c10_strip_at_most_one_sign_witness :
    _strip_use_flag (pstr "--foo") signPrefixes = pstr "-foo"
    ∧ _strip_use_flag (pstr "--foo") signPrefixes ≠ pstr "foo" :=
  have h := c10_strip_at_most_one_sign '-' '-' (pstr "foo") (Or.inr rfl) (Or.inr rfl)
  ⟨h.1, h.2.1⟩
